import Mathlib

/-!
Shallow embedding of the Lister backend access-control and limit-enforcement
logic (Fastify route handlers under backend/routes and the group/list/user
route plugins), together with proofs of the specification claims.

Entities follow the TypeORM entity schemas: User, List (embedded here as
`ListEntity` because `List` is taken by the Lean prelude), Item, ItemComment,
Group.  The many-to-many join tables group_members and group_shared_lists are
stored on the owning (Group) side, exactly as in the source schemas.  Ids are
modelled as `Nat`.  Route handlers are embedded as pure functions from a
database snapshot to an HTTP status code (and, for mutating handlers, an
updated snapshot).
-/

namespace Lister

/-- User entity (entities/user.js): email is unique, `activated` defaults to
true at the schema level, `roles` is a simple array. -/
structure User where
  id : Nat
  email : String
  name : Option String
  passwordHash : String
  activated : Bool
  roles : List String
  deriving Repr, DecidableEq

/-- List entity (entities/list.js): column `user` is the owner foreign key. -/
structure ListEntity where
  id : Nat
  user : Nat
  title : String
  deriving Repr, DecidableEq

/-- Item entity (entities/item.js): column `list` is the parent list foreign
key; the schema declares the relation with no onDelete behaviour. -/
structure Item where
  id : Nat
  list : Nat
  title : String
  description : Option String
  deriving Repr, DecidableEq

/-- Comment entity (entities/itemComment.js): `item` is the parent item,
`sourceUser` is the author. -/
structure ItemComment where
  id : Nat
  item : Nat
  sourceUser : Nat
  text : String
  deriving Repr, DecidableEq

/-- Group entity (entities/group.js): `createdBy` is the creator/owner,
`members` holds the group_members join rows and `sharedLists` the
group_shared_lists join rows for this group. -/
structure Group where
  id : Nat
  name : String
  createdBy : Nat
  members : List Nat
  sharedLists : List Nat
  deriving Repr, DecidableEq

/-- Database snapshot: the five tables. -/
structure DB where
  users : List User
  lists : List ListEntity
  items : List Item
  comments : List ItemComment
  groups : List Group
  deriving Repr, DecidableEq

/-- Membership test used throughout the group routes:
`group.members?.some(member => member.id === userId) || group.createdBy === userId`. -/
def userInGroup (g : Group) (userId : Nat) : Bool :=
  g.createdBy == userId || g.members.contains userId

/-- Shared-list query used by checkCommentAccess and checkListAccess: the list
is joined to sharedWithGroups filtered by
`group.createdBy = :userId OR member.id = :userId`; the result is nonempty
exactly when some group both shares the list and contains the user. -/
def listSharedWithUser (db : DB) (listId userId : Nat) : Bool :=
  db.groups.any (fun g => g.sharedLists.contains listId && userInGroup g userId)

/-- Deny reasons returned by checkCommentAccess (routes/comments.js). -/
inductive DenyReason where
  | ownerBlind
  | notShared
  deriving Repr, DecidableEq

/-- Result of checkCommentAccess: `notFound` models the `null` return (mapped
to 404 by every caller), `denied r` models `canAccess: false` (mapped to 403),
and `allowed` models `canAccess: true`. -/
inductive CommentAccess where
  | notFound
  | denied (reason : DenyReason)
  | allowed
  deriving Repr, DecidableEq

/-- checkCommentAccess (routes/comments.js lines 56-94): list lookup, owner
rejection, shared-group check, then item lookup. -/
def checkCommentAccess (db : DB) (userId listId itemId : Nat) : CommentAccess :=
  match db.lists.find? (fun l => l.id == listId) with
  | none => .notFound
  | some list =>
    if list.user == userId then
      .denied .ownerBlind
    else if ! listSharedWithUser db listId userId then
      .denied .notShared
    else
      match db.items.find? (fun i => i.id == itemId && i.list == listId) with
      | none => .notFound
      | some _ => .allowed

/-- Whitespace predicate for the embedded JavaScript `String.prototype.trim`:
the ECMAScript WhiteSpace characters (tab, vertical tab, form feed, space,
no-break space, byte order mark and the Unicode space separators) together
with the LineTerminator characters. -/
def isJsWhitespace (c : Char) : Bool :=
  c == ' ' || c == '\t' || c == '\n' || c == '\r' ||
  c == '\u000B' || c == '\u000C' ||
  c == '\u00A0' || c == '\u1680' || c == '\u2000' || c == '\u2001' ||
  c == '\u2002' || c == '\u2003' || c == '\u2004' || c == '\u2005' ||
  c == '\u2006' || c == '\u2007' || c == '\u2008' || c == '\u2009' ||
  c == '\u200A' || c == '\u2028' || c == '\u2029' || c == '\u202F' ||
  c == '\u205F' || c == '\u3000' || c == '\uFEFF'

/-- Embedded JavaScript `text.trim()`: strips leading and trailing
whitespace. -/
def jsTrim (s : String) : String :=
  String.mk (((s.data.dropWhile isJsWhitespace).reverse.dropWhile isJsWhitespace).reverse)

/-- Helper: trimming never lengthens a string. -/
theorem jsTrim_length_le (s : String) : (jsTrim s).length ≤ s.length := by
  show (((s.data.dropWhile isJsWhitespace).reverse.dropWhile isJsWhitespace).reverse).length ≤
    s.data.length
  rw [List.length_reverse]
  refine le_trans (List.Sublist.length_le (List.dropWhile_sublist _)) ?_
  rw [List.length_reverse]
  exact List.Sublist.length_le (List.dropWhile_sublist _)

/-- Number of comments currently stored for an item
(`commentRepository.count({ where: { item: itemId } })`). -/
def commentCount (db : DB) (itemId : Nat) : Nat :=
  (db.comments.filter (fun c => c.item == itemId)).length

/-- GET /lists/:listId/items/:itemId/comments handler, as a status code. -/
def getCommentsStatus (db : DB) (userId listId itemId : Nat) : Nat :=
  match checkCommentAccess db userId listId itemId with
  | .notFound => 404
  | .denied _ => 403
  | .allowed => 200

/-- POST /lists/:listId/items/:itemId/comments handler, as a status code:
first the Fastify body validation against commentCreateSchema (text required,
1 to 5000 characters, rejected with 400 before the handler body runs), then
the access check, the empty-trimmed-text validation, and the 100-comment
limit. -/
def postCommentStatus (db : DB) (userId listId itemId : Nat) (text : String) : Nat :=
  if text.length < 1 || 5000 < text.length then 400
  else
    match checkCommentAccess db userId listId itemId with
    | .notFound => 404
    | .denied _ => 403
    | .allowed =>
      if (jsTrim text).length == 0 then 400
      else if 100 ≤ commentCount db itemId then 400
      else 201

/-- Example database for the C1 witness: user 1 owns list 10 and is also the
creator and a member of group 7 with which list 10 is shared; item 20 lives in
list 10. -/
def dbC1 : DB :=
  { users := [⟨1, "a@x", none, "h", true, ["user"]⟩]
  , lists := [⟨10, 1, "Birthday"⟩]
  , items := [⟨20, 10, "Bike", none⟩]
  , comments := [⟨30, 20, 2, "nice"⟩]
  , groups := [⟨7, "Family", 1, [1, 2], [10]⟩] }

/-- C1: owner comment blindness.  For every snapshot, if the list lookup for
`listId` yields a list owned by `u`, then the comment-access decision for `u`
is Deny with the distinct owner reason, for every item and regardless of the
group and sharing state contained in the snapshot. -/
theorem owner_comment_blindness
    (db : DB) (u listId itemId : Nat) (L : ListEntity)
    (hfind : db.lists.find? (fun l => l.id == listId) = some L)
    (hown : L.user = u) :
    checkCommentAccess db u listId itemId = .denied .ownerBlind := by
  unfold checkCommentAccess
  rw [hfind]
  simp [hown]

/-- C1 witness: in `dbC1`, user 1 owns list 10, is creator and member of the
sharing group 7, and is still denied with the owner reason. -/
theorem owner_comment_blindness_witness :
    dbC1.lists.find? (fun l => l.id == 10) = some ⟨10, 1, "Birthday"⟩ ∧
    checkCommentAccess dbC1 1 10 20 = .denied .ownerBlind :=
  ⟨by decide, owner_comment_blindness dbC1 1 10 20 ⟨10, 1, "Birthday"⟩ (by decide) rfl⟩

/-- Comment lookup shared by the update and delete handlers
(`commentRepository.findOne({ where: { id: commentId, item: itemId } })`). -/
def findComment (db : DB) (commentId itemId : Nat) : Option ItemComment :=
  db.comments.find? (fun c => c.id == commentId && c.item == itemId)

/-- PUT /lists/:listId/items/:itemId/comments/:commentId handler: first the
Fastify body validation against commentUpdateSchema (text 1 to 5000
characters, rejected with 400 before the handler body runs), then the access
check, the empty-trimmed-text validation, the comment lookup, and the
authorship check `comment.sourceUser !== userId`. -/
def putCommentStatus (db : DB) (userId listId itemId commentId : Nat) (text : String) : Nat :=
  if text.length < 1 || 5000 < text.length then 400
  else
    match checkCommentAccess db userId listId itemId with
    | .notFound => 404
    | .denied _ => 403
    | .allowed =>
      if (jsTrim text).length == 0 then 400
      else
        match findComment db commentId itemId with
        | none => 404
        | some cm => if cm.sourceUser == userId then 200 else 403

/-- DELETE /lists/:listId/items/:itemId/comments/:commentId handler: access
check, comment lookup, then the authorship check. -/
def deleteCommentStatus (db : DB) (userId listId itemId commentId : Nat) : Nat :=
  match checkCommentAccess db userId listId itemId with
  | .notFound => 404
  | .denied _ => 403
  | .allowed =>
    match findComment db commentId itemId with
    | none => 404
    | some cm => if cm.sourceUser == userId then 204 else 403

/-- Example database for C4: user 2 is a member of group 7 with which list 10
(owned by user 1) is shared; item 20 is in list 10 and has no comments yet. -/
def dbC4 : DB :=
  { users := [⟨1, "a@x", none, "h", true, ["user"]⟩, ⟨2, "b@x", none, "h", true, ["user"]⟩]
  , lists := [⟨10, 1, "Birthday"⟩]
  , items := [⟨20, 10, "Bike", none⟩]
  , comments := []
  , groups := [⟨7, "Family", 1, [2], [10]⟩] }

/-- C4: comment read/create symmetry.  For any snapshot and any (user, list,
item) triple, provided the posted text survives validation (non-empty after
trimming and within the 5000-character schema bound) and the item is below
the 100-comment cap, the create-comment handler succeeds exactly when the
read-comments handler succeeds: both gate on the same checkCommentAccess
decision. -/
theorem comment_read_create_symmetry
    (db : DB) (u listId itemId : Nat) (text : String)
    (htext : (jsTrim text).length ≠ 0) (hmax : text.length ≤ 5000)
    (hcount : commentCount db itemId < 100) :
    postCommentStatus db u listId itemId text = 201 ↔
      getCommentsStatus db u listId itemId = 200 := by
  have hmin : 1 ≤ text.length := by
    have h := jsTrim_length_le text
    omega
  have h1 : ¬ text.length < 1 := by omega
  have h2 : ¬ 5000 < text.length := by omega
  have hschema : (text.length < 1 || 5000 < text.length) = false := by
    rw [decide_eq_false h1, decide_eq_false h2]
    rfl
  unfold postCommentStatus getCommentsStatus
  rw [hschema]
  simp only [Bool.false_eq_true, if_false]
  cases hacc : checkCommentAccess db u listId itemId <;> simp
  have h3 : ¬ (100 ≤ commentCount db itemId) := by omega
  simp [h3, htext]

/-- C4 witness: in `dbC4`, user 2 can both read comments and create one. -/
theorem comment_read_create_symmetry_witness :
    (jsTrim "hi").length ≠ 0 ∧ "hi".length ≤ 5000 ∧ commentCount dbC4 20 < 100 ∧
    (postCommentStatus dbC4 2 10 20 "hi" = 201 ↔ getCommentsStatus dbC4 2 10 20 = 200) :=
  ⟨by decide, by decide, by decide,
    comment_read_create_symmetry dbC4 2 10 20 "hi" (by decide) (by decide) (by decide)⟩

/-- Example database for the C5 counterexample: comment 30 on item 20 was
authored by user 2, but list 10 is not shared with any group, so user 2 no
longer has comment access. -/
def dbC5cex : DB :=
  { users := [⟨1, "a@x", none, "h", true, ["user"]⟩, ⟨2, "b@x", none, "h", true, ["user"]⟩]
  , lists := [⟨10, 1, "Birthday"⟩]
  , items := [⟨20, 10, "Bike", none⟩]
  , comments := [⟨30, 20, 2, "mine"⟩]
  , groups := [] }

/-- C5 counterexample: user 2 is exactly the author of comment 30, yet both
the edit and the delete decision are 403 (the handlers first require comment
access, which user 2 lacks because list 10 is not shared with any of their
groups).  This refutes the claim that the decision is Allow if and only if
the requester is the author. -/
theorem comment_author_exclusivity_cex :
    (findComment dbC5cex 30 20).map ItemComment.sourceUser = some 2 ∧
    deleteCommentStatus dbC5cex 2 10 20 30 = 403 ∧
    putCommentStatus dbC5cex 2 10 20 30 "edit" = 403 := by
  refine ⟨by decide, by decide, ?_⟩
  decide

/-- C5 amended: the edit and delete decisions are Allow exactly when the
requester has comment access (non-owner with a shared-group path to the list)
AND is the author of the comment.  Within the set of users holding comment
access, authorship is the sole write authority, so list owners, group owners
and admins gain nothing. -/
theorem comment_author_exclusivity_amended
    (db : DB) (u listId itemId commentId : Nat) (text : String)
    (htext : (jsTrim text).length ≠ 0) (hmax : text.length ≤ 5000) :
    (deleteCommentStatus db u listId itemId commentId = 204 ↔
      (checkCommentAccess db u listId itemId = .allowed ∧
        (findComment db commentId itemId).map ItemComment.sourceUser = some u)) ∧
    (putCommentStatus db u listId itemId commentId text = 200 ↔
      (checkCommentAccess db u listId itemId = .allowed ∧
        (findComment db commentId itemId).map ItemComment.sourceUser = some u)) := by
  have hmin : 1 ≤ text.length := by
    have h := jsTrim_length_le text
    omega
  have h1 : ¬ text.length < 1 := by omega
  have h2 : ¬ 5000 < text.length := by omega
  have hschema : (text.length < 1 || 5000 < text.length) = false := by
    rw [decide_eq_false h1, decide_eq_false h2]
    rfl
  constructor
  · unfold deleteCommentStatus
    cases hacc : checkCommentAccess db u listId itemId <;> simp
    cases hfc : findComment db commentId itemId <;> simp
  · unfold putCommentStatus
    rw [hschema]
    simp only [Bool.false_eq_true, if_false]
    cases hacc : checkCommentAccess db u listId itemId <;> simp
    simp [htext]
    cases hfc : findComment db commentId itemId <;> simp

/-- Example database for the C5 amended witness: user 2 has comment access to
list 10 through group 7 and authored comment 30. -/
def dbC5 : DB :=
  { users := [⟨1, "a@x", none, "h", true, ["user"]⟩, ⟨2, "b@x", none, "h", true, ["user"]⟩]
  , lists := [⟨10, 1, "Birthday"⟩]
  , items := [⟨20, 10, "Bike", none⟩]
  , comments := [⟨30, 20, 2, "mine"⟩]
  , groups := [⟨7, "Family", 1, [2], [10]⟩] }

/-- C5 amended witness: in `dbC5` the author (user 2) may edit and delete
their comment, and the characterization holds at this concrete input. -/
theorem comment_author_exclusivity_amended_witness :
    (jsTrim "edit").length ≠ 0 ∧ "edit".length ≤ 5000 ∧
    deleteCommentStatus dbC5 2 10 20 30 = 204 ∧
    putCommentStatus dbC5 2 10 20 30 "edit" = 200 := by
  have h := comment_author_exclusivity_amended dbC5 2 10 20 30 "edit" (by decide) (by decide)
  refine ⟨by decide, by decide, h.1.mpr ⟨by decide, by decide⟩, h.2.mpr ⟨by decide, by decide⟩⟩

/-- checkListOwnership (routes/items.js lines 49-54):
`listRepository.findOne({ where: { id: listId, user: userId } })`. -/
def checkListOwnership (db : DB) (userId listId : Nat) : Option ListEntity :=
  db.lists.find? (fun l => l.id == listId && l.user == userId)

/-- GET /lists/:listId/items/:itemId handler (routes/items.js lines 99-140):
the read gate is checkListOwnership, then the item lookup. -/
def getItemStatus (db : DB) (userId listId itemId : Nat) : Nat :=
  match checkListOwnership db userId listId with
  | none => 404
  | some _ =>
    match db.items.find? (fun i => i.id == itemId && i.list == listId) with
    | none => 404
    | some _ => 200

/-- checkListAccess (lists route plugin lines 48-72): ownership first, else
the shared-group query; returns the list and an isOwner flag. -/
def checkListAccess (db : DB) (userId listId : Nat) : Option (ListEntity × Bool) :=
  match db.lists.find? (fun l => l.id == listId && l.user == userId) with
  | some l => some (l, true)
  | none =>
    match db.lists.find? (fun l => l.id == listId) with
    | none => none
    | some l =>
      if listSharedWithUser db listId userId then some (l, false) else none

/-- GET /lists/:id handler of the lists route plugin (checkListAccess based):
200 on owned or shared access, 404 otherwise. -/
def getListStatus (db : DB) (userId listId : Nat) : Nat :=
  match checkListAccess db userId listId with
  | none => 404
  | some _ => 200

/-- Example database for C2: user 2 is a member of group 7 with which list 10
(owned by user 1) is shared, and item 20 is in list 10. -/
def dbC2 : DB :=
  { users := [⟨1, "a@x", none, "h", true, ["user"]⟩, ⟨2, "b@x", none, "h", true, ["user"]⟩]
  , lists := [⟨10, 1, "Birthday"⟩]
  , items := [⟨20, 10, "Bike", none⟩]
  , comments := []
  , groups := [⟨7, "Family", 1, [2], [10]⟩] }

/-- C2 divergence: user 2 can read list 10 (checkListAccess succeeds through
the shared group, and the list route answers 200), yet the item-read handler
answers 404 for item 20 of that same list, because routes/items.js gates item
reads on checkListOwnership instead of checkListAccess.  Item visibility
therefore does not inherit list visibility. -/
theorem item_visibility_divergence :
    (checkListAccess dbC2 2 10).isSome = true ∧
    getListStatus dbC2 2 10 = 200 ∧
    getItemStatus dbC2 2 10 20 = 404 := by
  decide

/-- Number of items in the given list, as counted by the schema. -/
def itemCount (db : DB) (listId : Nat) : Nat :=
  (db.items.filter (fun i => i.list == listId)).length

/-- POST /lists/:listId/items handler (routes/items.js lines 143-190): the
Fastify body schema enforces title length 1-255, then checkListOwnership;
the handler contains no item-count limit check of any kind. -/
def postItemStatus (db : DB) (userId listId : Nat) (title : String) : Nat :=
  if title.length < 1 || 255 < title.length then 400
  else
    match checkListOwnership db userId listId with
    | none => 404
    | some _ => 201

/-- Number of lists owned by the given user
(`listRepository.count({ where: { user: userId } })`). -/
def listCount (db : DB) (userId : Nat) : Nat :=
  (db.lists.filter (fun l => l.user == userId)).length

/-- POST /lists handler (lists route plugin lines 170-214): body schema,
empty-title validation, then the 100-list limit. -/
def postListStatus (db : DB) (userId : Nat) (title : String) : Nat :=
  if title.length < 1 || 255 < title.length then 400
  else if (jsTrim title).length == 0 then 400
  else if 100 ≤ listCount db userId then 400
  else 201

/-- POST /groups/:id/members handler (groups route plugin lines 343-411):
group lookup, creator check, user lookup, duplicate check, then the insert;
the handler contains no member-count limit check. -/
def addMember (db : DB) (userId groupId newMemberId : Nat) : Nat × DB :=
  match db.groups.find? (fun g => g.id == groupId) with
  | none => (404, db)
  | some g =>
    if g.createdBy != userId then (403, db)
    else
      match db.users.find? (fun us => us.id == newMemberId) with
      | none => (404, db)
      | some _ =>
        if g.members.contains newMemberId then (400, db)
        else
          (201, { db with
            groups := db.groups.map (fun g2 =>
              if g2.id == groupId then { g2 with members := g2.members ++ [newMemberId] }
              else g2) })

/-- Status component of the add-member handler. -/
def addMemberStatus (db : DB) (userId groupId newMemberId : Nat) : Nat :=
  (addMember db userId groupId newMemberId).fst

/-- Member count of the given group, 0 when the group does not exist. -/
def memberCountOf (db : DB) (groupId : Nat) : Nat :=
  ((db.groups.find? (fun g => g.id == groupId)).map (fun g => g.members.length)).getD 0

/-- Example database for C3: list 10 of user 1 already holds 1000 items. -/
def dbC3items : DB :=
  { users := [⟨1, "a@x", none, "h", true, ["user"]⟩]
  , lists := [⟨10, 1, "Birthday"⟩]
  , items := (List.range 1000).map (fun n => ⟨100 + n, 10, "it", none⟩)
  , comments := []
  , groups := [] }

/-- Example database for C3: group 7 of user 1 already holds 100 members, and
user 500 exists and is not yet a member. -/
def dbC3members : DB :=
  { users := [⟨1, "a@x", none, "h", true, ["user"]⟩, ⟨500, "n@x", none, "h", true, ["user"]⟩]
  , lists := []
  , items := []
  , comments := []
  , groups := [⟨7, "Family", 1, (List.range 100).map (fun n => 100 + n), []⟩] }

/-- Example database for C3: user 1 already owns 100 lists. -/
def dbC3lists : DB :=
  { users := [⟨1, "a@x", none, "h", true, ["user"]⟩]
  , lists := (List.range 100).map (fun n => ⟨10 + n, 1, "t"⟩)
  , items := []
  , comments := []
  , groups := [] }

/-- Example database for C3: item 20 already holds 100 comments; user 2 has
comment access through group 7. -/
def dbC3comments : DB :=
  { users := [⟨1, "a@x", none, "h", true, ["user"]⟩, ⟨2, "b@x", none, "h", true, ["user"]⟩]
  , lists := [⟨10, 1, "Birthday"⟩]
  , items := [⟨20, 10, "Bike", none⟩]
  , comments := (List.range 100).map (fun n => ⟨100 + n, 20, 2, "c"⟩)
  , groups := [⟨7, "Family", 1, [2], [10]⟩] }

set_option maxRecDepth 100000 in
/-- C3 divergence: with 1000 items already in list 10, creating another item
still returns 201 (the item handler has no limit check); with 100 members
already in group 7, adding member 500 still returns 201 (the add-member
handler has no limit check).  The list-count and comment-count limits, by
contrast, do reject at 100. -/
theorem limit_enforcement_divergence :
    itemCount dbC3items 10 = 1000 ∧
    postItemStatus dbC3items 1 10 "extra" = 201 ∧
    memberCountOf dbC3members 7 = 100 ∧
    addMemberStatus dbC3members 1 7 500 = 201 ∧
    listCount dbC3lists 1 = 100 ∧
    postListStatus dbC3lists 1 "new" = 400 ∧
    commentCount dbC3comments 20 = 100 ∧
    postCommentStatus dbC3comments 2 10 20 "x" = 400 := by
  refine ⟨by decide, by decide, by decide, by decide, by decide, by decide, by decide, by decide⟩

/-- canWriteList: the predicate used by the list update and delete handlers
(`findOne({ where: { id, user: userId } })` is non-null). -/
def canWriteList (db : DB) (userId listId : Nat) : Bool :=
  (db.lists.find? (fun l => l.id == listId && l.user == userId)).isSome

/-- Number of groups the list is currently shared with
(`list.sharedWithGroups.length`). -/
def sharedGroupCount (db : DB) (listId : Nat) : Nat :=
  (db.groups.filter (fun g => g.sharedLists.contains listId)).length

/-- Per-group verification loop of POST /lists/:id/share: each target group
must exist (else 404) and the requester must be its creator or a member
(else 403); the first failure aborts the request. -/
def checkShareGroups (db : DB) (userId : Nat) : List Nat → Nat
  | [] => 200
  | gid :: rest =>
    match db.groups.find? (fun g => g.id == gid) with
    | none => 404
    | some g => if userInGroup g userId then checkShareGroups db userId rest else 403

/-- POST /lists/:id/share handler (lists route plugin lines 312-409), status
only: ownership lookup, the 100-group sharing cap, then the per-group
existence and membership verification. -/
def shareListStatus (db : DB) (userId listId : Nat) (groupIds : List Nat) : Nat :=
  match db.lists.find? (fun l => l.id == listId && l.user == userId) with
  | none => 404
  | some _ =>
    if 100 < sharedGroupCount db listId + groupIds.length then 400
    else checkShareGroups db userId groupIds

/-- DELETE /lists/:id/share/:groupId handler (lines 412-469), status only:
ownership lookup, then existence of the sharing edge. -/
def unshareListStatus (db : DB) (userId listId groupId : Nat) : Nat :=
  match db.lists.find? (fun l => l.id == listId && l.user == userId) with
  | none => 404
  | some _ =>
    if db.groups.any (fun g => g.id == groupId && g.sharedLists.contains listId) then 200
    else 404

/-- Example database for the C6 counterexample: user 1 owns list 10 but is
neither creator nor member of group 7. -/
def dbC6 : DB :=
  { users := [⟨1, "a@x", none, "h", true, ["user"]⟩, ⟨2, "b@x", none, "h", true, ["user"]⟩]
  , lists := [⟨10, 1, "Birthday"⟩]
  , items := []
  , comments := []
  , groups := [⟨7, "Family", 2, [2], []⟩] }

/-- C6 counterexample: user 1 holds full write authority over list 10
(canWriteList is true), yet the share-add request targeting group 7 is
rejected with 403, because the handler additionally requires the requester to
be a creator or member of every target group.  Sharing management is therefore
not the same predicate as canWriteList. -/
theorem sharing_management_cex :
    canWriteList dbC6 1 10 = true ∧
    shareListStatus dbC6 1 10 [7] = 403 := by
  decide

/-- Helper: the verification loop of the share handler succeeds exactly when
every requested group exists and the requester is creator or member of it. -/
theorem checkShareGroups_eq (db : DB) (userId : Nat) (gids : List Nat) :
    checkShareGroups db userId gids = 200 ↔
      ∀ gid ∈ gids, ∃ g, db.groups.find? (fun x => x.id == gid) = some g ∧
        userInGroup g userId = true := by
  induction gids with
  | nil => simp [checkShareGroups]
  | cons hd tl ih =>
    simp only [checkShareGroups]
    cases hfind : db.groups.find? (fun x => x.id == hd) with
    | none =>
      simp only [List.mem_cons]
      constructor
      · intro h; exact absurd h (by decide)
      · intro h
        obtain ⟨g, hg, _⟩ := h hd (Or.inl rfl)
        rw [hfind] at hg
        exact absurd hg (by simp)
    | some g =>
      by_cases hm : userInGroup g userId = true
      · simp only [hm, if_true, ih, List.mem_cons, forall_eq_or_imp]
        constructor
        · intro h; exact ⟨⟨g, hfind, hm⟩, h⟩
        · intro h; exact h.2
      · rw [Bool.not_eq_true] at hm
        simp only [hm, Bool.false_eq_true, if_false]
        constructor
        · intro h; exact absurd h (by decide)
        · intro h
          obtain ⟨g2, hg2, hm2⟩ := h hd (List.mem_cons_self hd tl)
          rw [hfind] at hg2
          cases hg2
          rw [hm] at hm2
          exact absurd hm2 (by decide)

/-- C6 amended: removing a sharing edge is gated exactly on list ownership
(plus edge existence); adding sharing edges is gated on list ownership AND,
additionally, the requester being creator or member of every target group,
under the 100-group cap. -/
theorem sharing_management_amended
    (db : DB) (u listId groupId : Nat) (gids : List Nat) :
    (shareListStatus db u listId gids = 200 ↔
      (canWriteList db u listId = true ∧
        sharedGroupCount db listId + gids.length ≤ 100 ∧
        ∀ gid ∈ gids, ∃ g, db.groups.find? (fun x => x.id == gid) = some g ∧
          userInGroup g u = true)) ∧
    (unshareListStatus db u listId groupId = 200 ↔
      (canWriteList db u listId = true ∧
        db.groups.any (fun g => g.id == groupId && g.sharedLists.contains listId) = true)) := by
  constructor
  · unfold shareListStatus canWriteList
    cases hfind : db.lists.find? (fun l => l.id == listId && l.user == u) with
    | none => simp
    | some l =>
      by_cases hcap : 100 < sharedGroupCount db listId + gids.length
      · rw [if_pos hcap]
        simp only [Option.isSome_some, true_and]
        constructor
        · intro h; exact absurd h (by decide)
        · intro h; omega
      · rw [if_neg hcap]
        rw [checkShareGroups_eq]
        simp only [Option.isSome_some, true_and]
        constructor
        · intro h; exact ⟨by omega, h⟩
        · intro h; exact h.2
  · unfold unshareListStatus canWriteList
    cases hfind : db.lists.find? (fun l => l.id == listId && l.user == u) with
    | none => simp
    | some l =>
      by_cases hedge : db.groups.any (fun g => g.id == groupId && g.sharedLists.contains listId) = true
      · simp [hedge]
      · simp [hedge]

/-- Example database for the C8 counterexample: group 7 exists with creator 2
and sole member 2; list 10 belongs to user 2 and is not shared with any group
of user 1; item 20 is in list 10. -/
def dbC8 : DB :=
  { users := [⟨1, "a@x", none, "h", true, ["user"]⟩, ⟨2, "b@x", none, "h", true, ["user"]⟩]
  , lists := [⟨10, 2, "Secret"⟩]
  , items := [⟨20, 10, "Bike", none⟩]
  , comments := []
  , groups := [⟨7, "Family", 2, [2], []⟩] }

/-- GET /groups/:id handler (groups route plugin lines 109-157): 404 when the
group does not exist, 403 when it exists but the requester is neither creator
nor member, 200 otherwise. -/
def getGroupStatus (db : DB) (userId groupId : Nat) : Nat :=
  match db.groups.find? (fun g => g.id == groupId) with
  | none => 404
  | some g => if userInGroup g userId then 200 else 403

/-- GET /lists/:id handler of backend/routes/lists.js (lines 75-114): a single
ownership-scoped lookup, so a missing list and a list the requester cannot
read are both 404. -/
def getListStatusOwnerOnly (db : DB) (userId listId : Nat) : Nat :=
  match db.lists.find? (fun l => l.id == listId && l.user == userId) with
  | none => 404
  | some _ => 200

/-- C8 counterexample: requesting existing group 7 without membership yields
403 while requesting the absent group 99 yields 404, so the response reveals
that group 7 exists; the comment-collection read on the existing, unshared
list 10 likewise yields 403 rather than 404. -/
theorem notfound_unification_cex :
    getGroupStatus dbC8 1 7 = 403 ∧
    getGroupStatus dbC8 1 99 = 404 ∧
    getCommentsStatus dbC8 1 10 20 = 403 := by
  decide

/-- C8 amended: the list read paths do unify no-access with nonexistence
(they answer only 200 or 404 and never a Forbidden-style 403), but the group
read path answers 403 for an existing group whose requester is not a member,
exposing the existence of the group. -/
theorem notfound_unification_amended
    (db : DB) (u listId groupId : Nat) (g : Group)
    (hg : db.groups.find? (fun x => x.id == groupId) = some g)
    (hm : userInGroup g u = false) :
    (getListStatusOwnerOnly db u listId = 200 ∨ getListStatusOwnerOnly db u listId = 404) ∧
    (getListStatus db u listId = 200 ∨ getListStatus db u listId = 404) ∧
    getGroupStatus db u groupId = 403 := by
  refine ⟨?_, ?_, ?_⟩
  · unfold getListStatusOwnerOnly
    cases db.lists.find? (fun l => l.id == listId && l.user == u) <;> simp
  · unfold getListStatus
    cases checkListAccess db u listId <;> simp
  · unfold getGroupStatus
    rw [hg]
    simp [hm]

/-- C8 amended witness: instantiated in `dbC8` for user 1 and group 7. -/
theorem notfound_unification_amended_witness :
    dbC8.groups.find? (fun x => x.id == 7) = some ⟨7, "Family", 2, [2], []⟩ ∧
    userInGroup ⟨7, "Family", 2, [2], []⟩ 1 = false ∧
    getGroupStatus dbC8 1 7 = 403 :=
  ⟨by decide, by decide,
    (notfound_unification_amended dbC8 1 10 7 ⟨7, "Family", 2, [2], []⟩
      (by decide) (by decide)).2.2⟩

/-- DELETE /lists/:id handler (lists route plugin lines 269-309) combined
with the persistence semantics fixed by the entity schemas:
`listRepository.remove(list)` deletes the lists row and, through the
group_shared_lists junction table (whose foreign keys cascade), its sharing
edges; the items.list_id foreign key (ItemSchema.relations.list) declares no
onDelete behaviour, so removing a list that still has items violates the
constraint and the handler surfaces the failure as 500 without changing any
row.  Comments are never touched by this operation. -/
def deleteListOp (db : DB) (userId listId : Nat) : Nat × DB :=
  match db.lists.find? (fun l => l.id == listId && l.user == userId) with
  | none => (404, db)
  | some l =>
    if db.items.any (fun i => i.list == l.id) then (500, db)
    else
      (204, { db with
        lists := db.lists.filter (fun x => x.id != l.id)
        , groups := db.groups.map (fun g =>
            { g with sharedLists := g.sharedLists.filter (fun lid => lid != l.id) }) })

/-- Example database for the C9 counterexample: list 10 of user 1 holds item
20 with comment 30, and is shared with group 7. -/
def dbC9 : DB :=
  { users := [⟨1, "a@x", none, "h", true, ["user"]⟩, ⟨2, "b@x", none, "h", true, ["user"]⟩]
  , lists := [⟨10, 1, "Birthday"⟩]
  , items := [⟨20, 10, "Bike", none⟩]
  , comments := [⟨30, 20, 2, "mine"⟩]
  , groups := [⟨7, "Family", 1, [2], [10]⟩] }

/-- C9 counterexample: deleting list 10, which still holds item 20, fails
with 500 and leaves the database unchanged — the list, its item, the comment
and the sharing edge all remain, because no cascade is configured on the
items.list_id foreign key.  This refutes the claim that deleting a list
removes the list, its items, their comments and its sharing edges. -/
theorem cascade_on_list_delete_cex :
    (deleteListOp dbC9 1 10).fst = 500 ∧
    (deleteListOp dbC9 1 10).snd = dbC9 := by
  decide

/-- C9 amended: for an owned list, the delete fails with 500 and changes
nothing whenever some item still references the list; when the list has no
items, the delete succeeds removing exactly the list row and its sharing
edges, while the items and comments tables are untouched (so comments of a
previously deleted item would not be cleaned up by this path either). -/
theorem cascade_on_list_delete_amended
    (db : DB) (u listId : Nat) (l : ListEntity)
    (hfind : db.lists.find? (fun x => x.id == listId && x.user == u) = some l) :
    (db.items.any (fun i => i.list == l.id) = true →
      deleteListOp db u listId = (500, db)) ∧
    (db.items.any (fun i => i.list == l.id) = false →
      (deleteListOp db u listId).fst = 204 ∧
      (deleteListOp db u listId).snd.lists = db.lists.filter (fun x => x.id != l.id) ∧
      (deleteListOp db u listId).snd.items = db.items ∧
      (deleteListOp db u listId).snd.comments = db.comments ∧
      (deleteListOp db u listId).snd.groups = db.groups.map (fun g =>
        { g with sharedLists := g.sharedLists.filter (fun lid => lid != l.id) })) := by
  constructor
  · intro hit
    unfold deleteListOp
    rw [hfind]
    simp [hit]
  · intro hit
    unfold deleteListOp
    rw [hfind]
    simp [hit]

/-- Example database for the C9 amended witness: list 10 of user 1 has no
items but is shared with group 7. -/
def dbC9b : DB :=
  { users := [⟨1, "a@x", none, "h", true, ["user"]⟩]
  , lists := [⟨10, 1, "Birthday"⟩, ⟨11, 1, "Other"⟩]
  , items := []
  , comments := []
  , groups := [⟨7, "Family", 1, [], [10, 11]⟩] }

/-- C9 amended witness: deleting the empty list 10 succeeds, removes the list
row and the (10, 7) sharing edge, and touches nothing else. -/
theorem cascade_on_list_delete_amended_witness :
    dbC9b.lists.find? (fun x => x.id == 10 && x.user == 1) = some ⟨10, 1, "Birthday"⟩ ∧
    dbC9b.items.any (fun i => i.list == 10) = false ∧
    (deleteListOp dbC9b 1 10).fst = 204 ∧
    (deleteListOp dbC9b 1 10).snd.groups = [⟨7, "Family", 1, [], [11]⟩] := by
  have h := cascade_on_list_delete_amended dbC9b 1 10 ⟨10, 1, "Birthday"⟩ (by decide)
  have h2 := h.2 (by decide)
  refine ⟨by decide, by decide, h2.1, ?_⟩
  rw [h2.2.2.2.2]
  decide

/-- The bcrypt hashing boundary (fastify-bcrypt), modelled as an injective
tagging function. -/
def bcryptHash (password : String) : String :=
  "bcrypt:" ++ password

/-- Fresh primary key for a newly inserted user row, standing in for the
generated uuid. -/
def freshUserId (db : DB) : Nat :=
  (db.users.map (fun u => u.id)).foldr max 0 + 1

/-- POST /users registration handler (backend/routes/users.js lines 38-70):
email and password are required, a duplicate email is rejected with 409, and
the new user is created with `roles: ['admin']`; the activated column takes
its schema default `true`. -/
def registerUser (db : DB) (email password : String) : Nat × DB :=
  if email.isEmpty || password.isEmpty then (400, db)
  else
    match db.users.find? (fun u => u.email == email) with
    | some _ => (409, db)
    | none =>
      (201, { db with
        users := db.users ++
          [⟨freshUserId db, email, none, bcryptHash password, true, ["admin"]⟩] })

/-- authorize(roles) preHandler factory (plugins/auth.js): the request passes
when the required role set is a subset of the requesting user role set. -/
def authorize (required userRoles : List String) : Bool :=
  required.all (fun r => userRoles.contains r)

/-- C10: every user created by the public registration endpoint carries the
role set ['admin'], and therefore passes the authorize(['admin']) gate used
by GET /users and DELETE /users/:id. -/
theorem registration_grants_admin
    (db : DB) (email password : String)
    (hemail : email.isEmpty = false) (hpw : password.isEmpty = false)
    (hnew : db.users.find? (fun u => u.email == email) = none) :
    (registerUser db email password).fst = 201 ∧
    ∃ u, u ∈ (registerUser db email password).snd.users ∧ u.email = email ∧
      u.roles = ["admin"] ∧ authorize ["admin"] u.roles = true := by
  have hstep : registerUser db email password =
      (201, { db with
        users := db.users ++
          [⟨freshUserId db, email, none, bcryptHash password, true, ["admin"]⟩] }) := by
    unfold registerUser
    rw [hnew, hemail, hpw]
    rfl
  rw [hstep]
  exact ⟨rfl, ⟨freshUserId db, email, none, bcryptHash password, true, ["admin"]⟩,
    by simp, rfl, rfl, rfl⟩

/-- C10 witness: registering a fresh account in an empty database yields an
admin-role user. -/
theorem registration_grants_admin_witness :
    ("c@x".isEmpty = false) ∧ ("pw123456".isEmpty = false) ∧
    (DB.mk [] [] [] [] []).users.find? (fun u => u.email == "c@x") = none ∧
    ((registerUser (DB.mk [] [] [] [] []) "c@x" "pw123456").fst = 201 ∧
      ∃ u, u ∈ (registerUser (DB.mk [] [] [] [] []) "c@x" "pw123456").snd.users ∧
        u.email = "c@x" ∧ u.roles = ["admin"] ∧ authorize ["admin"] u.roles = true) :=
  ⟨by decide, by decide, by decide,
    registration_grants_admin (DB.mk [] [] [] [] []) "c@x" "pw123456"
      (by decide) (by decide) (by decide)⟩

/-- POST /users/invite handler (users route plugin lines 451-522): an email
already present is rejected with 409; otherwise a new user row is inserted
with activated false and the hashed placeholder password "default", and the
invitation email is (conceptually) sent. -/
def inviteUser (db : DB) (email : String) (name : Option String) : Nat × DB :=
  if email.isEmpty then (400, db)
  else
    match db.users.find? (fun u => u.email == email) with
    | some _ => (409, db)
    | none =>
      (201, { db with
        users := db.users ++
          [⟨freshUserId db, email, name, bcryptHash "default", false, ["user"]⟩] })

/-- Modelled from the spec: the backend exposes no single endpoint that
combines invitation with group membership — POST /groups/:id/members takes a
user id and 404s on unknown users, while POST /users/invite creates the
unactivated user without touching any group; the resolve-or-create
orchestration described in spec section 4.3 and in the usage guide lives in
the group-membership UI, which is missing from src/.  It is modelled here
as the composition of the two embedded source handlers: resolve the email,
invite first when it is unknown, then add the membership edge for the
resolved or created user id. -/
def addMemberByEmail (db : DB) (userId groupId : Nat) (email : String) : Nat × DB :=
  match db.users.find? (fun u => u.email == email) with
  | some existing => addMember db userId groupId existing.id
  | none =>
    let r := inviteUser db email none
    if r.fst == 201 then addMember r.snd userId groupId (freshUserId db)
    else (r.fst, db)

/-- Helper: every element of a list of naturals is bounded by the foldr max. -/
theorem mem_le_foldr_max (l : List Nat) : ∀ x ∈ l, x ≤ l.foldr max 0 := by
  induction l with
  | nil => simp
  | cons hd tl ih =>
    intro x hx
    rcases List.mem_cons.mp hx with h | h
    · subst h
      simp only [List.foldr_cons]
      exact Nat.le_max_left _ _
    · simp only [List.foldr_cons]
      exact le_trans (ih x h) (Nat.le_max_right _ _)

/-- Helper: the fresh id is distinct from every existing user id. -/
theorem freshUserId_not_used (db : DB) : ∀ u2 ∈ db.users, u2.id ≠ freshUserId db := by
  intro u2 h
  have hle : u2.id ≤ (db.users.map (fun x => x.id)).foldr max 0 :=
    mem_le_foldr_max _ _ (List.mem_map_of_mem _ h)
  unfold freshUserId
  omega

/-- Helper: looking up the fresh id among the existing users fails. -/
theorem find?_freshUserId (db : DB) :
    db.users.find? (fun x => x.id == freshUserId db) = none := by
  rw [List.find?_eq_none]
  intro x hx
  simpa using freshUserId_not_used db x hx

/-- Helper: the add-member handler never modifies the users table. -/
theorem addMember_users_eq (db : DB) (u gid mid : Nat) :
    (addMember db u gid mid).snd.users = db.users := by
  unfold addMember
  cases hfg : db.groups.find? (fun g => g.id == gid) with
  | none => rfl
  | some g =>
    by_cases hb : (g.createdBy != u) = true
    · simp [hb]
    · rw [Bool.not_eq_true] at hb
      simp only [hb, Bool.false_eq_true, if_false]
      cases hfu : db.users.find? (fun x => x.id == mid) with
      | none => rfl
      | some _ =>
        by_cases hc : mid ∈ g.members
        · simp [hc]
        · simp [hc]

/-- Helper: the add-member handler succeeds and appends the membership edge
when the group exists, the requester is its creator, the target user exists,
and the target is not yet a member. -/
theorem addMember_success (db : DB) (u gid mid : Nat) (g : Group) (usr : User)
    (hg : db.groups.find? (fun x => x.id == gid) = some g)
    (hcr : g.createdBy = u)
    (husr : db.users.find? (fun x => x.id == mid) = some usr)
    (hmem : g.members.contains mid = false) :
    addMember db u gid mid =
      (201, { db with groups := db.groups.map (fun g2 =>
        if g2.id == gid then { g2 with members := g2.members ++ [mid] }
        else g2) }) := by
  unfold addMember
  have hbne : (g.createdBy != u) = false := by simp [hcr]
  simp only [hg, hbne, Bool.false_eq_true, if_false, husr, hmem]

/-- Helper: after the add-member update, looking up the target group yields
the group with the new member appended. -/
theorem find?_groups_after_add (db : DB) (gid mid : Nat) (g : Group)
    (hg : db.groups.find? (fun x => x.id == gid) = some g) :
    (db.groups.map (fun g2 =>
      if g2.id == gid then { g2 with members := g2.members ++ [mid] }
      else g2)).find? (fun x => x.id == gid) =
      some { g with members := g.members ++ [mid] } := by
  have hggid : (g.id == gid) = true := by
    simpa using List.find?_some hg
  rw [List.find?_map]
  have hpf : ((fun x : Group => x.id == gid) ∘ (fun g2 : Group =>
      if g2.id == gid then { g2 with members := g2.members ++ [mid] } else g2)) =
      (fun x : Group => x.id == gid) := by
    funext x
    by_cases hx : x.id = gid
    · simp [hx]
    · simp [hx]
  rw [hpf, hg]
  simp [hggid]
  intro hcontra
  simp at hggid
  exact absurd hggid hcontra

/-- C7: invitation on add-member (spec-modelled orchestration over the two
embedded source handlers).  Adding an unknown email to a group creates a new
unactivated user whose credential is the hashed placeholder password and adds
the membership edge for the created id in the same operation; adding the
email of an existing user reduces to the plain add-member call with no
invitation: the users table is unchanged and the membership edge for the
resolved user id is added. -/
theorem invitation_on_add_member
    (db : DB) (u gid : Nat) (email : String) (g : Group)
    (hemail : email.isEmpty = false)
    (hg : db.groups.find? (fun x => x.id == gid) = some g)
    (hcreator : g.createdBy = u) :
    (db.users.find? (fun x => x.email == email) = none →
      g.members.contains (freshUserId db) = false →
      (addMemberByEmail db u gid email).fst = 201 ∧
      (∃ nu, nu ∈ (addMemberByEmail db u gid email).snd.users ∧
        nu.email = email ∧ nu.activated = false ∧
        nu.passwordHash = bcryptHash "default" ∧
        (∃ g2, (addMemberByEmail db u gid email).snd.groups.find?
            (fun x => x.id == gid) = some g2 ∧
          g2.members.contains nu.id = true))) ∧
    (∀ ex, db.users.find? (fun x => x.email == email) = some ex →
      g.members.contains ex.id = false →
      addMemberByEmail db u gid email = addMember db u gid ex.id ∧
      (addMemberByEmail db u gid email).snd.users = db.users ∧
      (addMemberByEmail db u gid email).fst = 201 ∧
      (∃ g2, (addMemberByEmail db u gid email).snd.groups.find?
          (fun x => x.id == gid) = some g2 ∧
        g2.members.contains ex.id = true)) := by
  constructor
  · intro hnew hfresh
    set nid := freshUserId db with hnid
    set nu : User := ⟨nid, email, none, bcryptHash "default", false, ["user"]⟩ with hnu
    set dbInv : DB := { db with users := db.users ++ [nu] } with hdbInv
    have hinv : inviteUser db email none = (201, dbInv) := by
      unfold inviteUser
      rw [hemail, hnew]
      rfl
    have hred : addMemberByEmail db u gid email = addMember dbInv u gid nid := by
      unfold addMemberByEmail
      rw [hnew, hinv]
      rfl
    have huser : dbInv.users.find? (fun x => x.id == nid) = some nu := by
      show (db.users ++ [nu]).find? (fun x => x.id == nid) = some nu
      rw [List.find?_append, find?_freshUserId]
      simp [hnu]
    have hgInv : dbInv.groups.find? (fun x => x.id == gid) = some g := hg
    have hres := addMember_success dbInv u gid nid g nu hgInv hcreator huser hfresh
    have hfind := find?_groups_after_add dbInv gid nid g hgInv
    rw [hred, hres]
    refine ⟨rfl, nu, by simp [hdbInv], rfl, rfl, rfl, ?_⟩
    exact ⟨{ g with members := g.members ++ [nid] }, hfind, by simp⟩
  · intro ex hex hexmem
    have hredex : addMemberByEmail db u gid email = addMember db u gid ex.id := by
      unfold addMemberByEmail
      rw [hex]
    have hexin : ex ∈ db.users := List.mem_of_find?_eq_some hex
    have hsome : (db.users.find? (fun x => x.id == ex.id)).isSome := by
      rw [List.find?_isSome]
      exact ⟨ex, hexin, by simp⟩
    obtain ⟨usr, husr⟩ := Option.isSome_iff_exists.mp hsome
    have hres := addMember_success db u gid ex.id g usr hg hcreator husr hexmem
    have hfind := find?_groups_after_add db gid ex.id g hg
    refine ⟨hredex, ?_, ?_, ?_⟩
    · rw [hredex, hres]
    · rw [hredex, hres]
    · rw [hredex, hres]
      exact ⟨{ g with members := g.members ++ [ex.id] }, hfind, by simp⟩

/-- Example database for the C7 witness: group 7 created by user 1, no
members yet; user 2 already exists with email b@x; the email n@x is unknown. -/
def dbC7 : DB :=
  { users := [⟨1, "a@x", none, "h", true, ["user"]⟩, ⟨2, "b@x", none, "h", true, ["user"]⟩]
  , lists := []
  , items := []
  , comments := []
  , groups := [⟨7, "Family", 1, [], []⟩] }

/-- C7 witness: both branches of the invitation-on-add-member theorem are
exercised on `dbC7` — the unknown email n@x creates and enrols a fresh user,
and the known email b@x enrols existing user 2 with no new user row. -/
theorem invitation_on_add_member_witness :
    ("n@x".isEmpty = false) ∧
    (dbC7.groups.find? (fun x => x.id == 7) = some ⟨7, "Family", 1, [], []⟩) ∧
    (dbC7.users.find? (fun x => x.email == "n@x") = none) ∧
    ((addMemberByEmail dbC7 1 7 "n@x").fst = 201) ∧
    (addMemberByEmail dbC7 1 7 "b@x" = addMember dbC7 1 7 2) ∧
    ((addMemberByEmail dbC7 1 7 "b@x").fst = 201) ∧
    (∃ g2, (addMemberByEmail dbC7 1 7 "b@x").snd.groups.find?
        (fun x => x.id == 7) = some g2 ∧ g2.members.contains 2 = true) := by
  have h := invitation_on_add_member dbC7 1 7 "n@x" ⟨7, "Family", 1, [], []⟩
    (by decide) (by decide) rfl
  have h1 := (h.1 (by decide) (by decide)).1
  have h2 := invitation_on_add_member dbC7 1 7 "b@x" ⟨7, "Family", 1, [], []⟩
    (by decide) (by decide) rfl
  have h3 := h2.2 ⟨2, "b@x", none, "h", true, ["user"]⟩ (by decide) (by decide)
  exact ⟨by decide, by decide, by decide, h1, h3.1, h3.2.2.1, h3.2.2.2⟩

end Lister
